import Mathlib

/-
  Verification of the s3-upload-mcp-server batch orchestration core.

  Shallow embedding of the Python sources:
    - src/s3_upload_mcp/s3_client.py       (generate_key, upload_multiple)
    - src/s3_upload_mcp/image_processor.py (is_supported_format, _resize_image,
                                            batch_optimize, get_optimization_stats)
    - src/s3_upload_mcp/models.py          (request validators)
    - src/s3_upload_mcp/tools.py           (batch_upload_images)

  Filesystem access, the image codec, the S3 SDK and the event loop are
  modelled as explicit oracle parameters; per-item async operations that may
  raise are modelled as functions into Except String.  Python floats are
  idealised as rationals.  Timestamps are passed in explicitly (fixed clock).
-/

namespace S3UploadMcp

/-! ### Path helpers (pathlib.Path.name / .suffix / os.path.splitext) -/

/-- Split a character list at every occurrence of the separator (the
char-level analogue of str.split, kept structurally recursive so that proofs
can evaluate it). -/
def splitOnChar (sep : Char) : List Char → List (List Char)
  | [] => [[]]
  | c :: rest =>
      match splitOnChar sep rest with
      | [] => if c = sep then [[], []] else [[c]]
      | h :: t => if c = sep then [] :: h :: t else (c :: h) :: t

/-- Components of a path after splitting on the separator, with empty
components and single-dot components removed, as pathlib normalisation does. -/
def pathComponents (s : String) : List String :=
  ((splitOnChar '/' s.data).map (fun l => (⟨l⟩ : String))).filter
    (fun c => c ≠ "" && c ≠ ".")

/-- Python pathlib Path(file_path).name: the final path component. -/
def pathName (s : String) : String :=
  (pathComponents s).getLastD ""

/-- os.path.splitext on a bare file name: split at the last dot, except that
a run of leading dots never starts an extension. -/
def splitext (f : String) : String × String :=
  let cs := f.data
  match (List.range cs.length).filter (fun i => cs.getD i ' ' = '.') |>.getLast? with
  | none => (f, "")
  | some dotIdx =>
      if (List.range dotIdx).any (fun i => cs.getD i ' ' ≠ '.') then
        (⟨cs.take dotIdx⟩, ⟨cs.drop dotIdx⟩)
      else
        (f, "")

/-- Python pathlib Path(file_path).suffix: the extension of the final
component; empty when the dot is at position 0 or at the very end. -/
def pathSuffix (p : String) : String :=
  let n := (pathName p).data
  match (List.range n.length).filter (fun i => n.getD i ' ' = '.') |>.getLast? with
  | none => ""
  | some i => if 0 < i ∧ i < n.length - 1 then ⟨n.drop i⟩ else ""

/-! ### ImageProcessor.is_supported_format -/

/-- ImageProcessor.SUPPORTED_FORMATS. -/
def SUPPORTED_FORMATS : List String :=
  [".png", ".jpg", ".jpeg", ".gif", ".webp", ".bmp", ".tiff", ".svg"]

/-- Python str.lower, character by character. -/
def pyLower (s : String) : String :=
  ⟨s.data.map Char.toLower⟩

/-- ImageProcessor.is_supported_format: lower-cased extension of the path is
in the supported set. -/
def isSupportedFormat (file_path : String) : Bool :=
  SUPPORTED_FORMATS.contains (pyLower (pathSuffix file_path))

/-! ### S3Client.generate_key -/

/-- Python str.rstrip() with no argument: drop trailing whitespace. -/
def pyRstrip (s : String) : String :=
  ⟨(s.data.reverse.dropWhile Char.isWhitespace).reverse⟩

/-- Python str.strip() with no argument: drop leading and trailing
whitespace. -/
def pyStrip (s : String) : String :=
  ⟨((s.data.dropWhile Char.isWhitespace).reverse.dropWhile Char.isWhitespace).reverse⟩

/-- Python str.rstrip applied to one given character: drop trailing copies. -/
def pyRstripChar (s : String) (c : Char) : String :=
  ⟨(s.data.reverse.dropWhile (fun d => d = c)).reverse⟩

/-- Characters kept by the key sanitiser: c.isalnum() or c in ('-', '_'). -/
def keyKeepChar (c : Char) : Bool :=
  c.isAlphanum || c = '-' || c = '_'

/-- S3Client.generate_key, with the UTC timestamp string passed explicitly
(datetime.now is the only effect of the Python function). -/
def generate_key (file_path : String) (folder_pre : Option String)
    (timestamp : String) : String :=
  let filename := pathName file_path
  let ne := splitext filename
  let safe_name := pyRstrip ⟨ne.1.data.filter keyKeepChar⟩
  let safe_filename := safe_name ++ "_" ++ timestamp ++ ne.2
  match folder_pre with
  | some pre => if pre ≠ "" then pyRstripChar pre '/' ++ "/" ++ safe_filename
                else safe_filename
  | none => safe_filename

/-- Sanitisation exactly as the spec words it: keep only alphanumeric
characters, hyphens and underscores of the base name (no trailing strip).
Used to compare the implementation against the specified derivation. -/
def sanitizeBaseNameSpec (name : String) : String :=
  ⟨name.data.filter keyKeepChar⟩

/-! ### ImageProcessor.get_optimization_stats -/

/-- Result dictionary of one item of ImageProcessor.batch_optimize.  Optional
fields mirror keys that are absent on one of the two branches. -/
structure OptResult where
  success : Bool
  file_path : String
  output_path : Option String
  original_size : Option Nat
  optimized_size : Option Nat
  error : Option String
deriving Repr, DecidableEq

/-- Python round-half-to-even on a rational, to an integer. -/
def roundHalfEven (q : ℚ) : ℤ :=
  if q - ⌊q⌋ < 1 / 2 then ⌊q⌋
  else if 1 / 2 < q - ⌊q⌋ then ⌊q⌋ + 1
  else if ⌊q⌋ % 2 = 0 then ⌊q⌋ else ⌊q⌋ + 1

/-- Python round(x, 2), idealised over the rationals. -/
def pyRound2 (q : ℚ) : ℚ :=
  (roundHalfEven (q * 100) : ℚ) / 100

/-- Aggregate statistics of ImageProcessor.get_optimization_stats. -/
structure OptStats where
  total_files : Nat
  successful : Nat
  failed : Nat
  total_original_size : Nat
  total_optimized_size : Nat
  compression_ratio : ℚ
  space_saved : ℤ
deriving Repr, DecidableEq

/-- ImageProcessor.get_optimization_stats: sums range over successful results
only; the ratio is a rounded percentage, zero when nothing was summed. -/
def get_optimization_stats (results : List OptResult) : OptStats :=
  let successfulL := results.filter (fun r => r.success)
  let failedL := results.filter (fun r => !r.success)
  let total_original_size : Nat := (successfulL.map (fun r => r.original_size.getD 0)).sum
  let total_optimized_size : Nat := (successfulL.map (fun r => r.optimized_size.getD 0)).sum
  let compression_ratio : ℚ :=
    if 0 < total_original_size then
      pyRound2 ((1 - (total_optimized_size : ℚ) / (total_original_size : ℚ)) * 100)
    else 0
  { total_files := results.length
    successful := successfulL.length
    failed := failedL.length
    total_original_size := total_original_size
    total_optimized_size := total_optimized_size
    compression_ratio := compression_ratio
    space_saved := (total_original_size : ℤ) - (total_optimized_size : ℤ) }

/-! ### ImageProcessor.batch_optimize

The per-item optimize operation (optimize_image plus the two getsize calls)
is an oracle returning either (output_path, original_size, optimized_size)
or a raised fault, modelled as Except.  The semaphore only bounds
concurrency; asyncio.gather returns results in task order, so the runner is
a map over the input list. -/

/-- One item of batch_optimize: the body of optimize_single, whose try block
catches any fault of the optimize operation. -/
def optimizeSingle (oracle : String → Except String (String × Nat × Nat))
    (file_path : String) : OptResult :=
  if !isSupportedFormat file_path then
    { success := false, file_path := file_path, output_path := none,
      original_size := none, optimized_size := none,
      error := some ("Unsupported format: " ++ pathSuffix file_path) }
  else
    match oracle file_path with
    | .ok (out, osz, psz) =>
        { success := true, file_path := file_path, output_path := some out,
          original_size := some osz, optimized_size := some psz, error := none }
    | .error e =>
        { success := false, file_path := file_path, output_path := none,
          original_size := none, optimized_size := none, error := some e }

/-- ImageProcessor.batch_optimize: one result per input path, in order. -/
def batch_optimize (oracle : String → Except String (String × Nat × Nat))
    (file_paths : List String) : List OptResult :=
  file_paths.map (optimizeSingle oracle)

/-! ### S3Client.upload_multiple -/

/-- The metadata dictionary attached by batch_upload_images to a task. -/
structure TaskMeta where
  original_file : String
  optimized : Bool
  quality : String
  batch_index : String
deriving Repr, DecidableEq

/-- One entry of the upload_tasks list of batch_upload_images. -/
structure UploadTask where
  file_path : String
  key : String
  metadata : TaskMeta
deriving Repr, DecidableEq

/-- Result dictionary of S3Client.upload_file (or of the fault conversion in
upload_multiple).  Only the fields the orchestrator reads are modelled. -/
structure UploadResult where
  success : Bool
  url : Option String
  key : Option String
  error : Option String
deriving Repr, DecidableEq

/-- S3Client.upload_multiple: the per-item operation (upload_file) is an
oracle that may raise; asyncio.gather with return_exceptions=True yields one
entry per task in task order, and a raised fault for task i is replaced by a
failure record holding the stringified fault and the task key. -/
def upload_multiple (op : UploadTask → Except String UploadResult)
    (files : List UploadTask) : List UploadResult :=
  files.map (fun t =>
    match op t with
    | .ok r => r
    | .error e => { success := false, url := none, key := some t.key, error := some e })

/-! ### ImageProcessor._resize_image (dimension arithmetic) -/

/-- Dimension computation of ImageProcessor._resize_image: identity when both
dimensions fit, otherwise uniform scaling by the smaller bound ratio with
truncation to integers (Python float arithmetic idealised over ℚ). -/
def resizeDims (w h maxW maxH : Nat) : Nat × Nat :=
  if w ≤ maxW ∧ h ≤ maxH then (w, h)
  else
    let ratio : ℚ := min ((maxW : ℚ) / (w : ℚ)) ((maxH : ℚ) / (h : ℚ))
    ((⌊(w : ℚ) * ratio⌋).toNat, (⌊(h : ℚ) * ratio⌋).toNat)

/-! ### models.py request validation -/

/-- UploadRequest/BatchUploadRequest field validator for bucket_name. -/
def validateBucketName (v : String) : Except String String :=
  if v = "" then .error "Bucket name cannot be empty"
  else if pyStrip v = "" then .error "Bucket name cannot be empty"
  else .ok (pyStrip v)

/-- UploadRequest field validator for file_path. -/
def validateFilePath (v : String) : Except String String :=
  if v = "" then .error "File path cannot be empty"
  else if pyStrip v = "" then .error "File path cannot be empty"
  else .ok (pyStrip v)

/-- BatchUploadRequest field validator for file_paths. -/
def validateFilePaths (v : List String) : Except String (List String) :=
  if v = [] then .error "File paths list cannot be empty"
  else if v.any (fun p => p = "" || pyStrip p = "") then .error "File path cannot be empty"
  else .ok (v.map (fun p => pyStrip p))

/-- Pydantic validation of UploadRequest: field constraint quality in 1..100
plus the two field validators, in declaration order. -/
def validateUploadRequest (file_path bucket_name : String) (quality : Int) :
    Except String (String × String) :=
  match validateFilePath file_path with
  | .error e => .error e
  | .ok fp =>
    match validateBucketName bucket_name with
    | .error e => .error e
    | .ok b =>
      if quality < 1 ∨ 100 < quality then
        .error "quality must be between 1 and 100"
      else .ok (fp, b)

/-- Pydantic validation of BatchUploadRequest: min_length 1 on file_paths,
quality in 1..100, max_concurrent in 1..10, plus the field validators. -/
def validateBatchUploadRequest (file_paths : List String) (bucket_name : String)
    (quality max_concurrent : Int) : Except String (List String × String) :=
  if file_paths.length < 1 then .error "file_paths must contain at least 1 item"
  else
    match validateFilePaths file_paths with
    | .error e => .error e
    | .ok fps =>
      match validateBucketName bucket_name with
      | .error e => .error e
      | .ok b =>
        if quality < 1 ∨ 100 < quality then
          .error "quality must be between 1 and 100"
        else if max_concurrent < 1 ∨ 10 < max_concurrent then
          .error "max_concurrent must be between 1 and 10"
        else .ok (fps, b)

/-! ### tools.batch_upload_images

Parameters of one call, with the environment effects as oracles:
fsExists models os.path.exists; optOracle models optimize_image plus the
getsize calls; optPhaseFault, when some, models the whole batch_optimize
call raising (the except branch at tools.py line 240); uploadOp models
upload_file for one task; ts is the fixed-clock timestamp string used by
generate_key. -/
structure BatchParams where
  fsExists : String → Bool
  optOracle : String → Except String (String × Nat × Nat)
  optPhaseFault : Option String
  uploadOp : UploadTask → Except String UploadResult
  ts : String
  file_paths : List String
  folder_pre : Option String
  optimize : Bool
  quality : Nat

/-- One entry of the detailed results list built at tools.py lines 290-296. -/
structure DetailEntry where
  file_path : String
  success : Bool
  url : Option String
  error : Option String
  key : Option String
deriving Repr, DecidableEq

/-- models.BatchUploadResponse (processing_time, a wall-clock value, is not
modelled). -/
structure BatchUploadResponse where
  success : Bool
  urls : List String := []
  errors : List String := []
  total_files : Nat
  successful_uploads : Nat
  failed_uploads : Nat
  optimization_stats : Option OptStats := none
  results : List DetailEntry := []
deriving Repr, DecidableEq

/-- The valid_files list of the filtering loop (tools.py lines 191-204):
files that exist and have a supported format, in input order. -/
def validFiles (fsE : String → Bool) (fps : List String) : List String :=
  fps.filter (fun fp => fsE fp && isSupportedFormat fp)

/-- The errors recorded by the filtering loop, in input order. -/
def filterErrors (fsE : String → Bool) (fps : List String) : List String :=
  fps.filterMap (fun fp =>
    if !fsE fp then some ("File not found: " ++ fp)
    else if !isSupportedFormat fp then
      some ("Unsupported format " ++ pathSuffix fp ++ ": " ++ fp)
    else none)

/-- The optimization phase (tools.py lines 217-244): returns the processed
file list, the optional statistics and the extended error list.  When the
batch_optimize call itself raises, the except branch falls back to the
unoptimized valid files. -/
def optimizePhase (p : BatchParams) (valid errors0 : List String) :
    List String × Option OptStats × List String :=
  if p.optimize then
    match p.optPhaseFault with
    | some _ => (valid, none, errors0)
    | none =>
      let ores := batch_optimize p.optOracle valid
      (ores.filterMap (fun r => if r.success then r.output_path else none),
       some (get_optimization_stats ores),
       errors0 ++ ores.filterMap (fun r =>
         if r.success then none
         else some ("Optimization failed for " ++ r.file_path ++ ": " ++
                    r.error.getD "Unknown error")))
  else (valid, none, errors0)

/-- The upload_tasks loop (tools.py lines 256-269): i is the index in the
processed working list, and original_file reads file_paths at that same
index when in range. -/
def tasksFrom (p : BatchParams) : Nat → List String → List UploadTask
  | _, [] => []
  | i, fp :: rest =>
      { file_path := fp
        key := generate_key fp p.folder_pre p.ts
        metadata :=
          { original_file := if i < p.file_paths.length then p.file_paths.getD i "" else fp
            optimized := p.optimize
            quality := toString p.quality
            batch_index := toString i } } :: tasksFrom p (i + 1) rest

/-- The detailed_results entries of the aggregation loop (tools.py lines
283-296): one entry per upload result, file_path read from file_paths at the
working-list index when in range, else from processed_files. -/
def detailsFrom (fps processed : List String) : Nat → List UploadResult → List DetailEntry
  | _, [] => []
  | i, r :: rest =>
      { file_path := if i < fps.length then fps.getD i "" else processed.getD i ""
        success := r.success
        url := r.url
        error := r.error
        key := r.key } :: detailsFrom fps processed (i + 1) rest

/-- The error messages appended by the aggregation loop for failed uploads. -/
def uploadErrorsFrom (fps : List String) : Nat → List UploadResult → List String
  | _, [] => []
  | i, r :: rest =>
      (if r.success then []
       else ["Upload failed for " ++ fps.getD i "" ++ ": " ++ r.error.getD "Unknown error"]) ++
      uploadErrorsFrom fps (i + 1) rest

/-- The aggregation block of batch_upload_images (tools.py lines 278-322). -/
def aggregate (p : BatchParams) (errors1 : List String) (stats : Option OptStats)
    (processed : List String) (uresults : List UploadResult) : BatchUploadResponse :=
  let urls := uresults.filterMap (fun r => if r.success then some (r.url.getD "") else none)
  let successful := (uresults.filter (fun r => r.success)).length
  { success := decide (0 < successful)
    urls := urls
    errors := errors1 ++ uploadErrorsFrom p.file_paths 0 uresults
    total_files := p.file_paths.length
    successful_uploads := successful
    failed_uploads := p.file_paths.length - successful
    optimization_stats := stats
    results := detailsFrom p.file_paths processed 0 uresults }

/-- Key derivation, concurrent upload and aggregation over a given working
list (tools.py lines 256-322). -/
def uploadPhase (p : BatchParams) (processed : List String) (stats : Option OptStats)
    (errors1 : List String) : BatchUploadResponse :=
  aggregate p errors1 stats processed
    (upload_multiple p.uploadOp (tasksFrom p 0 processed))

/-- The valid files of a call. -/
def validOf (p : BatchParams) : List String :=
  validFiles p.fsExists p.file_paths

/-- The filtering-phase errors of a call. -/
def errors0Of (p : BatchParams) : List String :=
  filterErrors p.fsExists p.file_paths

/-- The outcome triple of the optimization phase of a call. -/
def optPhaseOf (p : BatchParams) : List String × Option OptStats × List String :=
  optimizePhase p (validOf p) (errors0Of p)

/-- The working file list surviving filtering and optimization. -/
def processedOf (p : BatchParams) : List String :=
  (optPhaseOf p).1

/-- The optimization statistics of a call (None unless the optimize phase ran
to completion). -/
def statsOf (p : BatchParams) : Option OptStats :=
  (optPhaseOf p).2.1

/-- The error list after filtering and optimization. -/
def errorsAfterOpt (p : BatchParams) : List String :=
  (optPhaseOf p).2.2

/-- tools.batch_upload_images: filtering, the two early returns (tools.py
lines 206-213 and 246-254), and the optimize/key/upload/aggregate pipeline. -/
def batch_upload_images (p : BatchParams) : BatchUploadResponse :=
  if validOf p = [] then
    { success := false, errors := errors0Of p, total_files := p.file_paths.length,
      successful_uploads := 0, failed_uploads := p.file_paths.length }
  else if processedOf p = [] then
    { success := false, errors := errorsAfterOpt p, total_files := p.file_paths.length,
      successful_uploads := 0, failed_uploads := p.file_paths.length,
      optimization_stats := statsOf p }
  else
    uploadPhase p (processedOf p) (statsOf p) (errorsAfterOpt p)

/-- The response built by the top-level exception handler of
batch_upload_images (tools.py lines 324-337). -/
def batchUploadErrorResponse (msg : String) (file_paths : List String) :
    BatchUploadResponse :=
  { success := false, errors := [msg], total_files := file_paths.length,
    successful_uploads := 0, failed_uploads := file_paths.length }

/-! ### Concrete instances used to witness or refute the claims -/

/-- An upload oracle that succeeds on every task, echoing the task key. -/
def okUploadOp (t : UploadTask) : Except String UploadResult :=
  .ok { success := true, url := some ("https://bucket.s3.region.amazonaws.com/" ++ t.key),
        key := some t.key, error := none }

/-- A batch call in which the first of two input files is missing, so the
filtering phase drops it; optimization is off and all uploads succeed. -/
def dropFirstParams : BatchParams :=
  { fsExists := fun fp => fp != "missing.png"
    optOracle := fun _ => .error "unused"
    optPhaseFault := none
    uploadOp := okUploadOp
    ts := "20250101_000000"
    file_paths := ["missing.png", "good.png"]
    folder_pre := none
    optimize := false
    quality := 80 }

/-- A batch call of one existing file in which the whole optimize phase
raises, exercising the batch-level fallback. -/
def optFaultParams : BatchParams :=
  { fsExists := fun _ => true
    optOracle := fun _ => .error "unused"
    optPhaseFault := some "event loop blew up"
    uploadOp := okUploadOp
    ts := "20250101_000000"
    file_paths := ["a.png"]
    folder_pre := none
    optimize := true
    quality := 80 }

/-- A batch call in which every input file is missing, so nothing survives
filtering. -/
def allMissingParams : BatchParams :=
  { fsExists := fun _ => false
    optOracle := fun _ => .error "unused"
    optPhaseFault := none
    uploadOp := okUploadOp
    ts := "20250101_000000"
    file_paths := ["x.png", "y.png"]
    folder_pre := none
    optimize := true
    quality := 80 }

/-- The default detail entry used when reading a list position explicitly. -/
def dDetail : DetailEntry :=
  { file_path := "", success := false, url := none, error := none, key := none }

/-- The default upload task used when reading a list position explicitly. -/
def dTask : UploadTask :=
  { file_path := "", key := "",
    metadata := { original_file := "", optimized := false, quality := "", batch_index := "" } }

/-- The default optimization result used when reading a list position. -/
def dOpt : OptResult :=
  { success := false, file_path := "", output_path := none,
    original_size := none, optimized_size := none, error := none }

/-- The default upload result used when reading a list position. -/
def dUpload : UploadResult :=
  { success := false, url := none, key := none, error := none }

/-- The optimization results of the worked statistics example of the spec:
two successes (1000,500) and (2000,1000) and one failure. -/
def statsExample : List OptResult :=
  [ { success := true, file_path := "a.png", output_path := some "a.optimized.png",
      original_size := some 1000, optimized_size := some 500, error := none },
    { success := true, file_path := "b.png", output_path := some "b.optimized.png",
      original_size := some 2000, optimized_size := some 1000, error := none },
    { success := false, file_path := "c.png", output_path := none,
      original_size := none, optimized_size := none, error := some "decode error" } ]

/-- Sum of the original sizes of the successful optimization results. -/
def sumOriginal (results : List OptResult) : Nat :=
  ((results.filter (fun r => r.success)).map (fun r => r.original_size.getD 0)).sum

/-- Sum of the optimized sizes of the successful optimization results. -/
def sumOptimized (results : List OptResult) : Nat :=
  ((results.filter (fun r => r.success)).map (fun r => r.optimized_size.getD 0)).sum

/-! ### Helper lemmas -/

theorem length_detailsFrom (fps pr : List String) :
    ∀ (i : Nat) (rs : List UploadResult), (detailsFrom fps pr i rs).length = rs.length := by
  intro i rs
  induction rs generalizing i with
  | nil => rfl
  | cons r rest ih => simp [detailsFrom, ih]

theorem length_tasksFrom (p : BatchParams) :
    ∀ (i : Nat) (l : List String), (tasksFrom p i l).length = l.length := by
  intro i l
  induction l generalizing i with
  | nil => rfl
  | cons fp rest ih => simp [tasksFrom, ih]

theorem tasksFrom_map_filePath (p : BatchParams) :
    ∀ (i : Nat) (l : List String), (tasksFrom p i l).map (fun t => t.file_path) = l := by
  intro i l
  induction l generalizing i with
  | nil => rfl
  | cons fp rest ih => simp [tasksFrom, ih]

theorem length_upload_multiple (op : UploadTask → Except String UploadResult)
    (files : List UploadTask) : (upload_multiple op files).length = files.length := by
  simp [upload_multiple]

theorem length_batch_optimize (oracle : String → Except String (String × Nat × Nat))
    (fps : List String) : (batch_optimize oracle fps).length = fps.length := by
  simp [batch_optimize]

theorem length_filterMap_if {α β : Type} (l : List α) (pr : α → Bool) (g : α → β) :
    (l.filterMap (fun r => if pr r then some (g r) else none)).length =
      (l.filter pr).length := by
  induction l with
  | nil => rfl
  | cons a rest ih =>
      by_cases h : pr a <;> simp [List.filterMap_cons, List.filter_cons, h, ih]

theorem length_filterMap_if_opt {α β : Type} (l : List α) (pr : α → Bool) (g : α → Option β)
    (hg : ∀ r, pr r = true → (g r).isSome) :
    (l.filterMap (fun r => if pr r then g r else none)).length = (l.filter pr).length := by
  induction l with
  | nil => rfl
  | cons a rest ih =>
      by_cases h : pr a
      · rcases Option.isSome_iff_exists.mp (hg a h) with ⟨b, hb⟩
        simp [List.filterMap_cons, List.filter_cons, h, hb, ih]
      · simp [List.filterMap_cons, List.filter_cons, h, ih]

theorem validOf_length_le (p : BatchParams) :
    (validOf p).length ≤ p.file_paths.length :=
  List.length_filter_le _ _

theorem processedOf_length_le (p : BatchParams) :
    (processedOf p).length ≤ p.file_paths.length := by
  unfold processedOf optPhaseOf optimizePhase
  by_cases ho : p.optimize
  · cases hf : p.optPhaseFault with
    | some e => simpa [ho, hf] using validOf_length_le p
    | none =>
        simp only [ho, hf, if_pos]
        calc ((batch_optimize p.optOracle (validOf p)).filterMap
                (fun r => if r.success then r.output_path else none)).length
            ≤ (batch_optimize p.optOracle (validOf p)).length :=
              List.length_filterMap_le _ _
          _ = (validOf p).length := length_batch_optimize _ _
          _ ≤ p.file_paths.length := validOf_length_le p
  · simpa [ho] using validOf_length_le p

theorem validOf_nil_processedOf_nil (p : BatchParams) (h : validOf p = []) :
    processedOf p = [] := by
  unfold processedOf optPhaseOf optimizePhase
  by_cases ho : p.optimize
  · cases hf : p.optPhaseFault with
    | some e => simp [ho, hf, h]
    | none => simp [ho, hf, h, batch_optimize]
  · simp [ho, h]

theorem detailsFrom_get? (fps pr : List String) :
    ∀ (i j : Nat) (rs : List UploadResult),
      (detailsFrom fps pr i rs).get? j = (rs.get? j).map (fun r =>
        { file_path := if i + j < fps.length then fps.getD (i + j) "" else pr.getD (i + j) ""
          success := r.success, url := r.url, error := r.error, key := r.key }) := by
  intro i j rs
  induction rs generalizing i j with
  | nil => simp [detailsFrom]
  | cons r rest ih =>
      cases j with
      | zero => simp [detailsFrom]
      | succ j =>
          have h : i + (j + 1) = (i + 1) + j := by omega
          simpa [detailsFrom, h] using ih (i + 1) j

theorem tasksFrom_get? (p : BatchParams) :
    ∀ (i j : Nat) (l : List String),
      (tasksFrom p i l).get? j = (l.get? j).map (fun fp =>
        { file_path := fp
          key := generate_key fp p.folder_pre p.ts
          metadata :=
            { original_file :=
                if i + j < p.file_paths.length then p.file_paths.getD (i + j) "" else fp
              optimized := p.optimize
              quality := toString p.quality
              batch_index := toString (i + j) } }) := by
  intro i j l
  induction l generalizing i j with
  | nil => simp [tasksFrom]
  | cons fp rest ih =>
      cases j with
      | zero => simp [tasksFrom]
      | succ j =>
          have h : i + (j + 1) = (i + 1) + j := by omega
          simpa [tasksFrom, h] using ih (i + 1) j

/-! ### Claim theorems -/

/-- C10: every BatchUploadResponse produced by batch_upload_images, on every
return path (both early short-circuits, normal completion, and the shape
built by the top-level exception handler), satisfies
successful_uploads + failed_uploads = total_files,
total_files = len(file_paths), and len(urls) = successful_uploads. -/
theorem C10_response_invariants (p : BatchParams) (msg : String) (fps : List String) :
    (batch_upload_images p).total_files = p.file_paths.length ∧
    (batch_upload_images p).successful_uploads + (batch_upload_images p).failed_uploads =
      (batch_upload_images p).total_files ∧
    (batch_upload_images p).urls.length = (batch_upload_images p).successful_uploads ∧
    (batchUploadErrorResponse msg fps).total_files = fps.length ∧
    (batchUploadErrorResponse msg fps).successful_uploads +
      (batchUploadErrorResponse msg fps).failed_uploads =
      (batchUploadErrorResponse msg fps).total_files ∧
    (batchUploadErrorResponse msg fps).urls.length =
      (batchUploadErrorResponse msg fps).successful_uploads := by
  refine ⟨?_, ?_, ?_, by simp [batchUploadErrorResponse], by simp [batchUploadErrorResponse],
    by simp [batchUploadErrorResponse]⟩ <;>
  · by_cases h1 : validOf p = []
    · simp [batch_upload_images, h1]
    · by_cases h2 : processedOf p = []
      · simp [batch_upload_images, h1, h2]
      · have hsle : ((upload_multiple p.uploadOp
            (tasksFrom p 0 (processedOf p))).filter (fun r => r.success)).length ≤
              p.file_paths.length := by
          calc ((upload_multiple p.uploadOp
                  (tasksFrom p 0 (processedOf p))).filter (fun r => r.success)).length
              ≤ (upload_multiple p.uploadOp (tasksFrom p 0 (processedOf p))).length :=
                List.length_filter_le _ _
            _ = (tasksFrom p 0 (processedOf p)).length := length_upload_multiple _ _
            _ = (processedOf p).length := length_tasksFrom _ _ _
            _ ≤ p.file_paths.length := processedOf_length_le p
        simp [batch_upload_images, h1, h2, uploadPhase, aggregate,
          length_filterMap_if, Nat.add_sub_cancel' hsle]

/-- C7: the overall success flag of the batch response is true exactly when
successful_uploads is positive, and when zero items survive filtering the
response reports failure. -/
theorem C7_success_iff_any_upload (p : BatchParams) :
    ((batch_upload_images p).success = true ↔
      0 < (batch_upload_images p).successful_uploads) ∧
    (validOf p = [] → (batch_upload_images p).success = false) := by
  constructor
  · by_cases h1 : validOf p = []
    · simp [batch_upload_images, h1]
    · by_cases h2 : processedOf p = []
      · simp [batch_upload_images, h1, h2]
      · simp [batch_upload_images, h1, h2, uploadPhase, aggregate]
  · intro h1
    simp [batch_upload_images, h1]

/-- C7 witness: a batch in which both files are missing yields success=false
with zero successful uploads. -/
theorem C7_witness : (batch_upload_images allMissingParams).success = false :=
  (C7_success_iff_any_upload allMissingParams).2 (by decide)

/-- C5: when the whole optimize phase raises, the fault is absorbed once and
the batch goes on to upload the original, unoptimized surviving files (the
upload tasks carry exactly the valid files), with no optimization statistics
and no propagated fault (the call still produces an aggregate response). -/
theorem C5_optimize_fault_fallback (p : BatchParams) (e : String)
    (ho : p.optimize = true) (hf : p.optPhaseFault = some e)
    (hv : validOf p ≠ []) :
    batch_upload_images p = uploadPhase p (validOf p) none (errors0Of p) ∧
    (tasksFrom p 0 (validOf p)).map (fun t => t.file_path) = validOf p ∧
    (batch_upload_images p).optimization_stats = none := by
  have hproc : processedOf p = validOf p := by
    unfold processedOf optPhaseOf optimizePhase
    simp [ho, hf]
  have hstats : statsOf p = none := by
    unfold statsOf optPhaseOf optimizePhase
    simp [ho, hf]
  have herrs : errorsAfterOpt p = errors0Of p := by
    unfold errorsAfterOpt optPhaseOf optimizePhase
    simp [ho, hf]
  have hmain : batch_upload_images p = uploadPhase p (validOf p) none (errors0Of p) := by
    unfold batch_upload_images
    rw [hproc, hstats, herrs]
    simp [hv]
  refine ⟨hmain, tasksFrom_map_filePath p 0 (validOf p), ?_⟩
  rw [hmain]
  simp [uploadPhase, aggregate]

/-- C5 witness: a one-file batch whose optimize phase raises still uploads
the original file and reports no optimization statistics. -/
theorem C5_witness :
    batch_upload_images optFaultParams =
      uploadPhase optFaultParams (validOf optFaultParams) none (errors0Of optFaultParams) ∧
    (tasksFrom optFaultParams 0 (validOf optFaultParams)).map (fun t => t.file_path) =
      validOf optFaultParams ∧
    (batch_upload_images optFaultParams).optimization_stats = none :=
  C5_optimize_fault_fallback optFaultParams "event loop blew up" rfl rfl (by decide)

/-- C1 counterexample: a two-file batch in which the first file is missing
produces a detailed results list of length 1, not length 2, so the list does
not have one entry per original input and the dropped item appears in no
detail entry. -/
theorem C1_counterexample :
    (batch_upload_images dropFirstParams).results.length = 1 ∧
    dropFirstParams.file_paths.length = 2 := by
  exact ⟨rfl, rfl⟩

/-- C1 amended: the detailed results list has exactly one entry per item of
the filtered/optimized working list (the files surviving filtering and
optimization), not per original input; items dropped during filtering or
optimization appear only in the flat error list, not in the detail list. -/
theorem C1_detail_count (p : BatchParams) :
    (batch_upload_images p).results.length = (processedOf p).length := by
  by_cases h1 : validOf p = []
  · simp [batch_upload_images, h1, validOf_nil_processedOf_nil p h1]
  · by_cases h2 : processedOf p = []
    · simp [batch_upload_images, h1, h2]
    · simp [batch_upload_images, h1, h2, uploadPhase, aggregate,
        length_detailsFrom, length_upload_multiple, length_tasksFrom]

/-- C2 counterexample: with the first of two inputs dropped by filtering, the
surviving working file good.png occupies working index 0, yet both the upload
task metadata (original_file) and the detail entry for it name missing.png,
the original item at index 0 of the original list — not the item the working
file was derived from. -/
theorem C2_counterexample :
    ((tasksFrom dropFirstParams 0 (processedOf dropFirstParams)).getD 0 dTask).file_path =
      "good.png" ∧
    ((tasksFrom dropFirstParams 0 (processedOf dropFirstParams)).getD 0
      dTask).metadata.original_file = "missing.png" ∧
    ((batch_upload_images dropFirstParams).results.getD 0 dDetail).file_path =
      "missing.png" := by
  exact ⟨rfl, rfl, rfl⟩

/-- C2 amended: the original_file metadata of each upload task and the
file_path of each detail entry are read from the original input list at the
index the item has in the filtered working list, so they name whatever
original item occupies that index — which is the item the working file derives from only when no
earlier item was dropped. -/
theorem C2_index_correlation (p : BatchParams) (i : Nat)
    (h1 : i < (processedOf p).length) (h2 : i < p.file_paths.length) :
    ((tasksFrom p 0 (processedOf p)).getD i dTask).metadata.original_file =
      p.file_paths.getD i "" ∧
    ((batch_upload_images p).results.getD i dDetail).file_path =
      p.file_paths.getD i "" := by
  rcases List.get?_eq_some.mpr ⟨h1, rfl⟩ with hfp
  constructor
  · have ht := tasksFrom_get? p 0 i (processedOf p)
    rw [List.get?_eq_get h1] at ht
    simp only [Nat.zero_add, Option.map_some] at ht
    show ((((tasksFrom p 0 (processedOf p)).get? i).getD dTask)).metadata.original_file = _
    rw [ht]
    simp [h2]
  · have hproc : processedOf p ≠ [] := by
      intro h
      rw [h] at h1
      simp at h1
    have hvalid : validOf p ≠ [] := by
      intro h
      exact hproc (validOf_nil_processedOf_nil p h)
    have hres : (batch_upload_images p).results =
        detailsFrom p.file_paths (processedOf p) 0
          (upload_multiple p.uploadOp (tasksFrom p 0 (processedOf p))) := by
      simp [batch_upload_images, hvalid, hproc, uploadPhase, aggregate]
    have hlen : i < (upload_multiple p.uploadOp (tasksFrom p 0 (processedOf p))).length := by
      rw [length_upload_multiple, length_tasksFrom]
      exact h1
    have hd := detailsFrom_get? p.file_paths (processedOf p) 0 i
      (upload_multiple p.uploadOp (tasksFrom p 0 (processedOf p)))
    rw [List.get?_eq_get hlen] at hd
    simp only [Nat.zero_add, Option.map_some] at hd
    show ((((batch_upload_images p).results.get? i).getD dDetail)).file_path = _
    rw [hres, hd]
    simp [h2]

/-- C2 witness: the index-correlation theorem applied at working index 0 of
the drop-first batch, where both hypotheses hold. -/
theorem C2_witness :
    ((tasksFrom dropFirstParams 0 (processedOf dropFirstParams)).getD 0
      dTask).metadata.original_file = dropFirstParams.file_paths.getD 0 "" ∧
    ((batch_upload_images dropFirstParams).results.getD 0 dDetail).file_path =
      dropFirstParams.file_paths.getD 0 "" :=
  C2_index_correlation dropFirstParams 0 (by decide) (by decide)

/-- The get-at-index law for List.map, stated over get?. -/
theorem get?_map_eq {α β : Type} (f : α → β) (l : List α) (i : Nat) :
    (l.map f).get? i = (l.get? i).map f := by
  induction l generalizing i with
  | nil => simp
  | cons a t ih => cases i <;> simp [ih]

/-- C3: both bounded concurrent runners return one result per item in input
order, the result at index i is a function of item i alone, a fault raised by
the per-item operation for item i is caught at the per-item boundary and
replaced by a failure record carrying the stringified fault and the
reference of item i, and the result at index i is unchanged under any change
of the behaviour of the operation away from item i. -/
theorem C3_runner_contract (oracle : String → Except String (String × Nat × Nat))
    (fps : List String) (op : UploadTask → Except String UploadResult)
    (tasks : List UploadTask) :
    (batch_optimize oracle fps).length = fps.length ∧
    (upload_multiple op tasks).length = tasks.length ∧
    (∀ (i : Nat) (fp : String), fps.get? i = some fp →
      (batch_optimize oracle fps).get? i = some (optimizeSingle oracle fp) ∧
      (∀ e, oracle fp = .error e → isSupportedFormat fp = true →
        (batch_optimize oracle fps).get? i = some
          { success := false, file_path := fp, output_path := none,
            original_size := none, optimized_size := none, error := some e }) ∧
      (∀ oracle2, oracle2 fp = oracle fp →
        (batch_optimize oracle2 fps).get? i = (batch_optimize oracle fps).get? i)) ∧
    (∀ (i : Nat) (t : UploadTask), tasks.get? i = some t →
      (∀ r, op t = .ok r → (upload_multiple op tasks).get? i = some r) ∧
      (∀ e, op t = .error e → (upload_multiple op tasks).get? i = some
        { success := false, url := none, key := some t.key, error := some e }) ∧
      (∀ op2, op2 t = op t →
        (upload_multiple op2 tasks).get? i = (upload_multiple op tasks).get? i)) := by
  refine ⟨length_batch_optimize oracle fps, length_upload_multiple op tasks, ?_, ?_⟩
  · intro i fp hfp
    have hbo : (batch_optimize oracle fps).get? i = some (optimizeSingle oracle fp) := by
      unfold batch_optimize
      rw [get?_map_eq, hfp]
      rfl
    refine ⟨hbo, ?_, ?_⟩
    · intro e he hsup
      rw [hbo]
      simp [optimizeSingle, hsup, he]
    · intro oracle2 h2
      unfold batch_optimize
      rw [get?_map_eq, get?_map_eq, hfp]
      simp [optimizeSingle, h2]
  · intro i t ht
    have hum : (upload_multiple op tasks).get? i = some
        (match op t with
         | .ok r => r
         | .error e => { success := false, url := none, key := some t.key, error := some e }) := by
      unfold upload_multiple
      rw [get?_map_eq, ht]
      rfl
    refine ⟨?_, ?_, ?_⟩
    · intro r hr
      rw [hum, hr]
    · intro e he
      rw [hum, he]
    · intro op2 h2
      unfold upload_multiple
      rw [get?_map_eq, get?_map_eq, ht]
      simp [h2]

/-- C3 witness: runners applied at index 0 of singleton inputs whose
operations raise: both faults are converted into failure records in place. -/
theorem C3_witness :
    (batch_optimize (fun _ => .error "disk full") ["a.png"]).get? 0 = some
      { success := false, file_path := "a.png", output_path := none,
        original_size := none, optimized_size := none, error := some "disk full" } ∧
    (upload_multiple (fun _ => .error "network down") [dTask]).get? 0 = some
      { success := false, url := none, key := some dTask.key,
        error := some "network down" } :=
  ⟨((C3_runner_contract (fun _ => .error "disk full") ["a.png"]
      (fun _ => .error "network down") [dTask]).2.2.1 0 "a.png" rfl).2.1
        "disk full" rfl (by decide),
   ((C3_runner_contract (fun _ => .error "disk full") ["a.png"]
      (fun _ => .error "network down") [dTask]).2.2.2 0 dTask rfl).2.1
        "network down" rfl⟩

/-- C4: a batch request with an empty file list, a blank file path, a blank
bucket name or a quality outside 1..100 never validates (rejection happens at
request validation, before any per-item upload or transform runs), and the
same holds of a single-upload request with a blank path, blank bucket or
out-of-range quality; the rejection carries a nonempty descriptive message. -/
theorem C4_validation_rejects (fps : List String) (bucket : String)
    (q mc : Int) (fp : String) :
    ((fps = [] ∨ (∃ p ∈ fps, pyStrip p = "") ∨ pyStrip bucket = "" ∨ q < 1 ∨ 100 < q) →
      ∃ msg, validateBatchUploadRequest fps bucket q mc = .error msg ∧ msg ≠ "") ∧
    ((pyStrip fp = "" ∨ pyStrip bucket = "" ∨ q < 1 ∨ 100 < q) →
      ∃ msg, validateUploadRequest fp bucket q = .error msg ∧ msg ≠ "") := by
  constructor
  · intro hbad
    unfold validateBatchUploadRequest validateFilePaths validateBucketName
    by_cases h0 : fps.length < 1
    · refine ⟨"file_paths must contain at least 1 item", ?_, by simp⟩
      simp [h0]
    · have hne : ¬fps = [] := by
        intro h
        rw [h] at h0
        simp at h0
      simp only [if_neg h0]
      by_cases h1 : fps.any (fun p => p = "" || pyStrip p = "")
      · refine ⟨"File path cannot be empty", ?_, by simp⟩
        simp [hne, h1]
      · have hnp : ¬(∃ p ∈ fps, pyStrip p = "") := by
          intro hex
          rcases hex with ⟨p, hp, hps⟩
          exact h1 (List.any_eq_true.mpr ⟨p, hp, by simp [hps]⟩)
        simp only [if_neg hne, if_neg h1]
        by_cases h2 : bucket = ""
        · refine ⟨"Bucket name cannot be empty", ?_, by simp⟩
          simp [h2]
        · simp only [if_neg h2]
          by_cases h3 : pyStrip bucket = ""
          · refine ⟨"Bucket name cannot be empty", ?_, by simp⟩
            simp [h3]
          · simp only [if_neg h3]
            have hq : q < 1 ∨ 100 < q := by
              rcases hbad with h | h | h | h | h
              · exact absurd h hne
              · exact absurd h hnp
              · exact absurd h h3
              · exact Or.inl h
              · exact Or.inr h
            refine ⟨"quality must be between 1 and 100", ?_, by simp⟩
            simp [hq]
  · intro hbad
    unfold validateUploadRequest validateFilePath validateBucketName
    by_cases h0 : fp = ""
    · refine ⟨"File path cannot be empty", ?_, by simp⟩
      simp [h0]
    · simp only [if_neg h0]
      by_cases h1 : pyStrip fp = ""
      · refine ⟨"File path cannot be empty", ?_, by simp⟩
        simp [h1]
      · simp only [if_neg h1]
        by_cases h2 : bucket = ""
        · refine ⟨"Bucket name cannot be empty", ?_, by simp⟩
          simp [h2]
        · simp only [if_neg h2]
          by_cases h3 : pyStrip bucket = ""
          · refine ⟨"Bucket name cannot be empty", ?_, by simp⟩
            simp [h3]
          · simp only [if_neg h3]
            have hq : q < 1 ∨ 100 < q := by
              rcases hbad with h | h | h | h
              · exact absurd h h1
              · exact absurd h h3
              · exact Or.inl h
              · exact Or.inr h
            refine ⟨"quality must be between 1 and 100", ?_, by simp⟩
            simp [hq]

/-- C4 witness: a batch request with quality 0 and a single-upload request
with a blank file path are both rejected by validation. -/
theorem C4_witness :
    (∃ msg, validateBatchUploadRequest ["a.png"] "bucket" 0 5 = .error msg ∧ msg ≠ "") ∧
    (∃ msg, validateUploadRequest "  " "bucket" 80 = .error msg ∧ msg ≠ "") :=
  ⟨(C4_validation_rejects ["a.png"] "bucket" 0 5 "  ").1
      (by right; right; right; left; decide),
   (C4_validation_rejects ["a.png"] "bucket" 80 5 "  ").2
      (by left; decide)⟩

/-- dropWhile is the identity when the predicate fails on every element. -/
theorem dropWhile_eq_self_of_false {α : Type} (p : α → Bool) (l : List α)
    (h : ∀ c ∈ l, p c = false) : l.dropWhile p = l := by
  cases l with
  | nil => rfl
  | cons a t =>
      rw [List.dropWhile_cons_of_neg]
      simp [h a (by simp)]

/-- No character kept by the key sanitiser is whitespace. -/
theorem keyKeepChar_not_whitespace (c : Char) (h : c.isWhitespace = true) :
    keyKeepChar c = false := by
  unfold keyKeepChar
  simp [Char.isWhitespace] at h
  rcases h with ((h | h) | h) | h <;> subst h <;> decide

/-- The trailing strip applied by generate_key after filtering is a no-op:
filtering already removed every whitespace character, so the implemented
sanitiser agrees with the sanitiser as the spec words it. -/
theorem pyRstrip_sanitize (name : String) :
    pyRstrip ⟨name.data.filter keyKeepChar⟩ = sanitizeBaseNameSpec name := by
  unfold pyRstrip sanitizeBaseNameSpec
  congr 1
  rw [dropWhile_eq_self_of_false, List.reverse_reverse]
  intro c hc
  rw [List.mem_reverse, List.mem_filter] at hc
  cases hw : c.isWhitespace with
  | false => rfl
  | true => exact absurd hc.2 (by simp [keyKeepChar_not_whitespace c hw])

/-- C6: optimization statistics are computed over successful results only
(appending a failed result changes no sum, no ratio and no space saved);
space saved is the difference of the summed sizes, the compression ratio is
the rounded percentage 1 - sum_after/sum_before when sum_before is positive
and 0 otherwise; and on the worked example (1000,500), (2000,1000) with a
failed item excluded, the ratio is 50.0 and the space saved 1500. -/
theorem C6_optimization_stats (results : List OptResult) (r : OptResult) :
    (get_optimization_stats results).space_saved =
      (sumOriginal results : ℤ) - (sumOptimized results : ℤ) ∧
    (0 < sumOriginal results →
      (get_optimization_stats results).compression_ratio =
        pyRound2 ((1 - (sumOptimized results : ℚ) / (sumOriginal results : ℚ)) * 100)) ∧
    (sumOriginal results = 0 → (get_optimization_stats results).compression_ratio = 0) ∧
    (r.success = false →
      sumOriginal (results ++ [r]) = sumOriginal results ∧
      sumOptimized (results ++ [r]) = sumOptimized results ∧
      (get_optimization_stats (results ++ [r])).compression_ratio =
        (get_optimization_stats results).compression_ratio ∧
      (get_optimization_stats (results ++ [r])).space_saved =
        (get_optimization_stats results).space_saved) ∧
    (get_optimization_stats statsExample).compression_ratio = 50 ∧
    (get_optimization_stats statsExample).space_saved = 1500 := by
  have hratio : ∀ rs : List OptResult, (get_optimization_stats rs).compression_ratio =
      if 0 < sumOriginal rs then
        pyRound2 ((1 - (sumOptimized rs : ℚ) / (sumOriginal rs : ℚ)) * 100)
      else 0 := fun rs => rfl
  have hspace : ∀ rs : List OptResult, (get_optimization_stats rs).space_saved =
      (sumOriginal rs : ℤ) - (sumOptimized rs : ℤ) := fun rs => rfl
  refine ⟨hspace results, ?_, ?_, ?_, ?_, ?_⟩
  · intro h
    rw [hratio, if_pos h]
  · intro h
    rw [hratio, if_neg (by simp [h])]
  · intro hr
    have h1 : sumOriginal (results ++ [r]) = sumOriginal results := by
      simp [sumOriginal, List.filter_append, List.filter_cons, hr]
    have h2 : sumOptimized (results ++ [r]) = sumOptimized results := by
      simp [sumOptimized, List.filter_append, List.filter_cons, hr]
    exact ⟨h1, h2, by rw [hratio, hratio, h1, h2], by rw [hspace, hspace, h1, h2]⟩
  · norm_num [get_optimization_stats, statsExample, pyRound2, roundHalfEven]
  · norm_num [get_optimization_stats, statsExample]

/-- C6 witness: the worked example has positive summed original size and
appending the default failed result leaves its sums unchanged. -/
theorem C6_witness :
    (get_optimization_stats statsExample).compression_ratio =
      pyRound2 ((1 - (sumOptimized statsExample : ℚ) / (sumOriginal statsExample : ℚ)) * 100) ∧
    sumOriginal (statsExample ++ [dOpt]) = sumOriginal statsExample :=
  ⟨(C6_optimization_stats statsExample dOpt).2.1 (by decide),
   ((C6_optimization_stats statsExample dOpt).2.2.2.1 rfl).1⟩

/-- C8: the derived storage key is the sanitised base name (keeping only
alphanumerics, hyphens and underscores), an underscore, the second-resolution
UTC timestamp and the original extension, prefixed with the namespace and a
slash when a folder prefix is given; and with a fixed clock the derivation is
deterministic — any two paths with the same base name, the same namespace and
the same second derive the identical key. -/
theorem C8_generate_key (fp pre ts : String) :
    generate_key fp none ts =
      sanitizeBaseNameSpec (splitext (pathName fp)).1 ++ "_" ++ ts ++
        (splitext (pathName fp)).2 ∧
    (pre ≠ "" → generate_key fp (some pre) ts =
      pyRstripChar pre '/' ++ "/" ++
        (sanitizeBaseNameSpec (splitext (pathName fp)).1 ++ "_" ++ ts ++
          (splitext (pathName fp)).2)) ∧
    (∀ fp2 preO, pathName fp2 = pathName fp →
      generate_key fp2 preO ts = generate_key fp preO ts) := by
  refine ⟨?_, ?_, ?_⟩
  · simp only [generate_key]
    rw [pyRstrip_sanitize]
  · intro hpre
    simp only [generate_key]
    rw [pyRstrip_sanitize]
    simp [hpre]
  · intro fp2 preO hname
    simp only [generate_key, hname]

/-- C8 witness: the structural equation instantiated on a path with spaces in
the base name, and determinism across two directories holding the same base
name. -/
theorem C8_witness :
    generate_key "pics/a b.png" (some "folder") "20250101_000000" =
      pyRstripChar "folder" '/' ++ "/" ++
        (sanitizeBaseNameSpec (splitext (pathName "pics/a b.png")).1 ++ "_" ++
          "20250101_000000" ++ (splitext (pathName "pics/a b.png")).2) ∧
    generate_key "other/dir/a b.png" (some "folder") "20250101_000000" =
      generate_key "pics/a b.png" (some "folder") "20250101_000000" :=
  ⟨(C8_generate_key "pics/a b.png" "folder" "20250101_000000").2.1 (by decide),
   (C8_generate_key "pics/a b.png" "folder" "20250101_000000").2.2
      "other/dir/a b.png" (some "folder") (by decide)⟩

/-- C9: the resize step is the identity when both dimensions already fit the
bounds; otherwise both dimensions are scaled uniformly by the smaller of
maxW/width and maxH/height and truncated, and the scaled dimensions fit the
bounds; in particular 4000x2000 under bounds 1920x1080 becomes 1920x960. -/
theorem C9_resize_policy (w h maxW maxH : Nat) :
    (w ≤ maxW → h ≤ maxH → resizeDims w h maxW maxH = (w, h)) ∧
    (0 < w → 0 < h → ¬(w ≤ maxW ∧ h ≤ maxH) →
      resizeDims w h maxW maxH =
        ((⌊(w : ℚ) * min ((maxW : ℚ) / (w : ℚ)) ((maxH : ℚ) / (h : ℚ))⌋).toNat,
         (⌊(h : ℚ) * min ((maxW : ℚ) / (w : ℚ)) ((maxH : ℚ) / (h : ℚ))⌋).toNat) ∧
      (resizeDims w h maxW maxH).1 ≤ maxW ∧ (resizeDims w h maxW maxH).2 ≤ maxH) ∧
    resizeDims 4000 2000 1920 1080 = (1920, 960) := by
  refine ⟨?_, ?_, ?_⟩
  · intro h1 h2
    simp [resizeDims, h1, h2]
  · intro hw hh hcond
    have heq : resizeDims w h maxW maxH =
        ((⌊(w : ℚ) * min ((maxW : ℚ) / (w : ℚ)) ((maxH : ℚ) / (h : ℚ))⌋).toNat,
         (⌊(h : ℚ) * min ((maxW : ℚ) / (w : ℚ)) ((maxH : ℚ) / (h : ℚ))⌋).toNat) := by
      simp [resizeDims, hcond]
    refine ⟨heq, ?_, ?_⟩
    · rw [heq]
      have hwq : (0 : ℚ) < (w : ℚ) := by exact_mod_cast hw
      have hb : (w : ℚ) * min ((maxW : ℚ) / (w : ℚ)) ((maxH : ℚ) / (h : ℚ)) ≤ (maxW : ℚ) := by
        calc (w : ℚ) * min ((maxW : ℚ) / (w : ℚ)) ((maxH : ℚ) / (h : ℚ))
            ≤ (w : ℚ) * ((maxW : ℚ) / (w : ℚ)) :=
              mul_le_mul_of_nonneg_left (min_le_left _ _) (le_of_lt hwq)
          _ = (maxW : ℚ) := by
              rw [mul_comm, div_mul_cancel₀ _ (ne_of_gt hwq)]
      rw [Int.toNat_le]
      calc ⌊(w : ℚ) * min ((maxW : ℚ) / (w : ℚ)) ((maxH : ℚ) / (h : ℚ))⌋
          ≤ ⌊(maxW : ℚ)⌋ := Int.floor_le_floor hb
        _ = (maxW : ℤ) := Int.floor_natCast maxW
    · rw [heq]
      have hhq : (0 : ℚ) < (h : ℚ) := by exact_mod_cast hh
      have hb : (h : ℚ) * min ((maxW : ℚ) / (w : ℚ)) ((maxH : ℚ) / (h : ℚ)) ≤ (maxH : ℚ) := by
        calc (h : ℚ) * min ((maxW : ℚ) / (w : ℚ)) ((maxH : ℚ) / (h : ℚ))
            ≤ (h : ℚ) * ((maxH : ℚ) / (h : ℚ)) :=
              mul_le_mul_of_nonneg_left (min_le_right _ _) (le_of_lt hhq)
          _ = (maxH : ℚ) := by
              rw [mul_comm, div_mul_cancel₀ _ (ne_of_gt hhq)]
      rw [Int.toNat_le]
      calc ⌊(h : ℚ) * min ((maxW : ℚ) / (w : ℚ)) ((maxH : ℚ) / (h : ℚ))⌋
          ≤ ⌊(maxH : ℚ)⌋ := Int.floor_le_floor hb
        _ = (maxH : ℤ) := Int.floor_natCast maxH
  · norm_num [resizeDims]
    constructor <;> decide

/-- C9 witness: the scaling branch applied to the 4000x2000 item under the
1920x1080 bounds, whose hypotheses hold. -/
theorem C9_witness :
    resizeDims 4000 2000 1920 1080 =
      ((⌊(4000 : ℚ) * min ((1920 : ℚ) / (4000 : ℚ)) ((1080 : ℚ) / (2000 : ℚ))⌋).toNat,
       (⌊(2000 : ℚ) * min ((1920 : ℚ) / (4000 : ℚ)) ((1080 : ℚ) / (2000 : ℚ))⌋).toNat) ∧
    (resizeDims 4000 2000 1920 1080).1 ≤ 1920 ∧
    (resizeDims 4000 2000 1920 1080).2 ≤ 1080 :=
  (C9_resize_policy 4000 2000 1920 1080).2.1 (by norm_num) (by norm_num) (by norm_num)

end S3UploadMcp
